import Mathlib

/-!
Verification development for the YKY Hub frontend (src/frontend/src/App.js).
The frontend is a React single-page application; we embed the state updates,
the requests each handler issues, and the user-visible effects as pure Lean
functions, and prove the specified properties about them.
-/

set_option linter.unusedVariables false

namespace YKY

/-! ## Payment-status polling (PaymentSuccess.pollPaymentStatus) -/

/-- Outcome of one fetch of GET /api/payments/status/:id as seen by the
client: an ok response carrying the payment_status field of the JSON body,
a non-ok response, or a network error (rejected promise). -/
inductive PollResponse
| ok (payment_status : String)
| notOk
| netErr
deriving DecidableEq, Repr

/-- Observable events of one run of pollPaymentStatus: a status request
(tagged with the attempt counter it was issued at), a setTimeout delay in
milliseconds, a setStatus state update, and the setUser call that marks
is_premium true. -/
inductive PollEvent
| request (attempt : Nat)
| delay (ms : Nat)
| setStatus (s : String)
| setPremium
deriving DecidableEq, Repr

/-- Whether a response is ok with payment_status equal to paid. -/
def respIsPaid : PollResponse → Bool
| .ok ps => ps = "paid"
| .notOk => false
| .netErr => false

/-- Embedding of pollPaymentStatus from App.js lines 1630-1654. The
environment is the sequence of responses the status endpoint returns, one
per attempt. The function returns the ordered trace of observable events
of the run starting at the given attempt counter (the component starts it
at 0). -/
def pollPaymentStatus (r : Nat → PollResponse) (attempts : Nat) : List PollEvent :=
  if h : 5 ≤ attempts then [.setStatus ("timeout")]
  else
    .request attempts ::
    (match r attempts with
     | .ok ps =>
       if ps = "paid" then [.setStatus ("success"), .setPremium]
       else .delay 2000 :: pollPaymentStatus r (attempts + 1)
     | .notOk => .delay 2000 :: pollPaymentStatus r (attempts + 1)
     | .netErr => .delay 2000 :: pollPaymentStatus r (attempts + 1))
termination_by 5 - attempts
decreasing_by all_goals omega

/-- Is the event a status request. -/
def isRequest : PollEvent → Bool
| .request _ => true
| _ => false

/-- Is the event the setUser call that marks is_premium true. -/
def isPremiumSet : PollEvent → Bool
| .setPremium => true
| _ => false

/-- Number of status requests in a trace. -/
def countRequests (t : List PollEvent) : Nat := t.countP isRequest

/-- Number of premium-flag updates in a trace. -/
def countPremium (t : List PollEvent) : Nat := t.countP isPremiumSet

/-! ## Data model -/

/-- The user record as stored in client state (fields the frontend reads:
email, name, is_premium). -/
structure UserRec where
  email : String
  name : String
  is_premium : Bool
deriving DecidableEq, Repr

/-- A community post as rendered by the feed. -/
structure Post where
  id : String
  user_name : String
  content : String
  category : String
deriving DecidableEq, Repr

/-- A drawn tarot card record as consumed by TarotPage (fields id, name,
reversed are the ones the page reads). -/
structure DrawnCard where
  id : Nat
  name : String
  reversed : Bool
deriving DecidableEq, Repr

/-- A reading as returned by POST /api/tarot/draw and stored in TarotPage
state: the card records and the free-text interpretation. -/
structure ReadingData where
  cards : List DrawnCard
  interpretation : String
deriving DecidableEq, Repr

/-- A database search result item. -/
structure DbItem where
  name : String
  itemType : String
  description : String
deriving DecidableEq, Repr

/-- An oracle chat message (role is user or oracle; audio is the optional
base64 audio attached to oracle replies). -/
structure Msg where
  role : String
  content : String
  audio : Option String
deriving DecidableEq, Repr

/-- Outcome of a fetch as observed by a handler: ok with the decoded JSON
payload, a non-ok HTTP response, or a network error (rejected promise). -/
inductive Fetched (α : Type)
| ok (data : α)
| notOk
| netErr
deriving DecidableEq, Repr

/-! ## Requests issued by the frontend -/

/-- Body of a request: empty, a JSON object (field name and value pairs),
or multipart form data (part name and value pairs). -/
inductive Body
| empty
| json (fields : List (String × String))
| form (parts : List (String × String))
deriving DecidableEq, Repr

/-- A fetch request: URL path, HTTP method, headers, query parameters and
body. -/
structure Request where
  url : String
  method : String
  headers : List (String × String)
  query : List (String × String)
  body : Body
deriving DecidableEq, Repr

/-- The Authorization header the frontend builds from the stored token. -/
def bearer (token : String) : String × String :=
  ("Authorization", "Bearer " ++ token)

/-- The JSON content-type header. -/
def contentTypeJson : String × String :=
  ("Content-Type", "application/json")

/-- GET /api/auth/me (fetchUser, App.js line 34). -/
def fetchUserReq (token : String) : Request :=
  ⟨"/api/auth/me", "GET", [bearer token], [], .empty⟩

/-- POST /api/auth/login (login, App.js line 51). -/
def loginReq (email password : String) : Request :=
  ⟨"/api/auth/login", "POST", [contentTypeJson], [],
   .json [("email", email), ("password", password)]⟩

/-- POST /api/auth/register (register, App.js line 65). -/
def registerReq (email password name birth_date : String) : Request :=
  ⟨"/api/auth/register", "POST", [contentTypeJson], [],
   .json [("email", email), ("password", password), ("name", name), ("birth_date", birth_date)]⟩

/-- GET /api/profile/soulprint (fetchSoulprint, App.js lines 367 and 1321). -/
def soulprintReq (token : String) : Request :=
  ⟨"/api/profile/soulprint", "GET", [bearer token], [], .empty⟩

/-- POST /api/oracle/chat (sendMessage with audio disabled, App.js line 546). -/
def oracleChatReq (token message : String) : Request :=
  ⟨"/api/oracle/chat", "POST", [contentTypeJson, bearer token], [],
   .json [("message", message)]⟩

/-- POST /api/oracle/speak (sendMessage with audio enabled, App.js line 546). -/
def oracleSpeakReq (token message : String) : Request :=
  ⟨"/api/oracle/speak", "POST", [contentTypeJson, bearer token], [],
   .json [("message", message)]⟩

/-- POST /api/oracle/listen (startRecording onstop, App.js line 604): the
recorded blob is appended to a FormData object under the part name file. -/
def oracleListenReq (token : String) : Request :=
  ⟨"/api/oracle/listen", "POST", [bearer token], [],
   .form [("file", "recording.webm")]⟩

/-- POST /api/tarot/draw (drawCards, App.js line 785). -/
def tarotDrawReq (token spread_type question : String) : Request :=
  ⟨"/api/tarot/draw", "POST", [contentTypeJson, bearer token], [],
   .json [("spread_type", spread_type), ("question", question)]⟩

/-- POST /api/bio/scan (startScan onloadend, App.js line 981): the recorded
audio is base64-encoded and sent inside a JSON body. -/
def bioScanReq (token audio_base64 : String) : Request :=
  ⟨"/api/bio/scan", "POST", [contentTypeJson, bearer token], [],
   .json [("audio_base64", audio_base64)]⟩

/-- GET /api/community/feed (fetchPosts, App.js line 1187). -/
def feedReq : Request :=
  ⟨"/api/community/feed", "GET", [], [], .empty⟩

/-- POST /api/community/post (createPost, App.js line 1203). -/
def createPostReq (token content category : String) : Request :=
  ⟨"/api/community/post", "POST", [contentTypeJson, bearer token], [],
   .json [("content", content), ("category", category)]⟩

/-- POST /api/payments/checkout (startCheckout, App.js line 1516). -/
def checkoutReq (token origin_url : String) : Request :=
  ⟨"/api/payments/checkout", "POST", [contentTypeJson, bearer token], [],
   .json [("package_id", "premium_monthly"), ("origin_url", origin_url)]⟩

/-- GET /api/payments/status/:sessionId (checkPaymentStatus line 1496 and
pollPaymentStatus line 1637). -/
def paymentStatusReq (token session_id : String) : Request :=
  ⟨"/api/payments/status/" ++ session_id, "GET", [bearer token], [], .empty⟩

/-- GET /api/database/search (search, App.js line 1716). -/
def searchReq (query category : String) : Request :=
  ⟨"/api/database/search", "GET", [], [("query", query), ("category", category)], .empty⟩

/-- The request carries the Authorization header with the stored token. -/
def HasBearer (req : Request) (token : String) : Prop :=
  bearer token ∈ req.headers

instance (req : Request) (token : String) : Decidable (HasBearer req token) := by
  unfold HasBearer
  infer_instance

/-- All backend requests the frontend issues after authentication, over the
respective user inputs. -/
def authedRequests (token message spread_type question audio_base64 content
    postCategory query dbCategory session_id origin_url : String) : List Request :=
  [fetchUserReq token,
   soulprintReq token,
   oracleChatReq token message,
   oracleSpeakReq token message,
   oracleListenReq token,
   tarotDrawReq token spread_type question,
   bioScanReq token audio_base64,
   feedReq,
   createPostReq token content postCategory,
   checkoutReq token origin_url,
   paymentStatusReq token session_id,
   searchReq query dbCategory]

/-- Whether the body is multipart form data. -/
def isFormBody : Body → Bool
| .form _ => true
| .empty => false
| .json _ => false

/-- The two audio uploads the client performs: the oracle voice
transcription upload and the bio-scan voice upload. -/
def audioUploadReqs (token audio_base64 : String) : List Request :=
  [oracleListenReq token, bioScanReq token audio_base64]

/-! ## Auth operations (AuthProvider) -/

/-- The response of an auth endpoint as the handlers consume it: the ok
flag, the detail field of an error body, and the token and user of a
success body. -/
structure AuthResponse where
  ok : Bool
  detail : Option String
  token : String
  user : UserRec
deriving DecidableEq, Repr

/-- JavaScript the-or-else on a string field: a missing or empty string
falls back to the default (err.detail or-or fallback). -/
def jsOrString (s : Option String) (d : String) : String :=
  match s with
  | some v => if v = "" then d else v
  | none => d

/-- Embedding of login (App.js lines 50-62): a non-ok response throws the
fixed message Invalid credentials without reading the body; an ok response
yields the token and user. -/
def login (res : AuthResponse) : Except String (String × UserRec) :=
  if res.ok then .ok (res.token, res.user)
  else .error ("Invalid credentials")

/-- Embedding of register (App.js lines 64-79): a non-ok response throws
the detail field of the server error body, falling back to Registration
failed; an ok response yields the token and user. -/
def register (res : AuthResponse) : Except String (String × UserRec) :=
  if res.ok then .ok (res.token, res.user)
  else .error (jsOrString res.detail ("Registration failed"))

/-- What the auth page shows after submitting. -/
inductive UiOutcome
| successToast (message : String) (navTo : String)
| errorToast (message : String)
deriving DecidableEq, Repr

/-- Embedding of AuthPage.handleSubmit (App.js lines 182-198): it runs
login or register and either shows a success toast and navigates to the
dashboard, or shows the thrown error message as an error toast. -/
def handleSubmit (isLogin : Bool) (res : AuthResponse) : UiOutcome :=
  match (if isLogin then login res else register res) with
  | .ok _ =>
    .successToast (if isLogin then ("Welcome back, Seeker") else ("Your journey begins")) ("/dashboard")
  | .error m => .errorToast m

/-! ## Routing (ProtectedRoute and the Routes table) -/

/-- What a route renders: the loading spinner, a react-router Navigate
element (path and the replace flag), or a page (with or without the
navigation bar) identified by its component name. -/
inductive Render
| spinner
| navigateTo (path : String) (replace : Bool)
| page (withNav : Bool) (content : String)
deriving DecidableEq, Repr

/-- Embedding of ProtectedRoute (App.js lines 1798-1819): while loading it
renders a spinner; with no user it renders a replace Navigate to /auth;
otherwise it renders the navigation bar and the children. -/
def protectedRoute (loading : Bool) (user : Option UserRec) (children : String) : Render :=
  if loading then .spinner
  else
    match user with
    | none => .navigateTo ("/auth") true
    | some _ => .page true children

/-- The element of a Route entry: a plain page, a page wrapped in
ProtectedRoute, or a replace Navigate redirect. -/
inductive RouteElement
| plain (page : String)
| wrapped (page : String)
| redirect (toPath : String)
deriving DecidableEq, Repr

/-- The Routes table of App (App.js lines 1845-1859). -/
def routes : List (String × RouteElement) :=
  [("/auth", .plain ("AuthPage")),
   ("/dashboard", .wrapped ("Dashboard")),
   ("/oracle", .wrapped ("VoiceOracle")),
   ("/tarot", .wrapped ("TarotPage")),
   ("/bio-scan", .wrapped ("BioScanner")),
   ("/community", .wrapped ("Community")),
   ("/profile", .wrapped ("Profile")),
   ("/premium", .wrapped ("PremiumPage")),
   ("/database", .wrapped ("DatabasePage")),
   ("/payment/success", .wrapped ("PaymentSuccess")),
   ("/payment/cancel", .wrapped ("PaymentCancel")),
   ("/", .redirect ("/dashboard")),
   ("*", .redirect ("/dashboard"))]

/-- Rendering a route element given the auth state. -/
def renderRoute (el : RouteElement) (loading : Bool) (user : Option UserRec) : Render :=
  match el with
  | .plain p => .page false p
  | .wrapped p => protectedRoute loading user p
  | .redirect t => .navigateTo t true

/-! ## Tarot spreads and the card draw -/

/-- A spread configuration of TarotPage. -/
structure Spread where
  id : String
  name : String
  cards : Nat
  premium : Bool
deriving DecidableEq, Repr

/-- The spreads table of TarotPage (App.js lines 767-771). -/
def spreads : List Spread :=
  [⟨"single", "Single Card", 1, false⟩,
   ⟨"three_card", "Past/Present/Future", 3, false⟩,
   ⟨"celtic_cross", "Celtic Cross", 10, true⟩]

/-- Number of cards the chosen spread is configured to return, looked up
in the spreads table by id (0 for an unknown id). -/
def spreadCardCount (spread_type : String) : Nat :=
  ((spreads.find? (fun s => s.id = spread_type)).map (fun s => s.cards)).getD 0

/-- Modelled from the spec: the backend of POST /api/tarot/draw is not in
src/; per the spec the draw is a uniform random sample without replacement
from a fixed 78-item card table, optionally flagging each drawn card as
reversed by a coin flip, returning the card count configured for the
chosen spread. We model the sample as the first N entries of a
permutation of the 78 card indices (the randomness source), the fixed
table as a function from index to card name, and the coin flips as a
function from drawn position to Bool. -/
def tarotDraw (table : Nat → String) (spread_type : String)
    (perm : List Nat) (coins : Nat → Bool) : List DrawnCard :=
  (perm.take (spreadCardCount spread_type)).enum.map
    (fun p => ⟨p.2, table p.2, coins p.1⟩)

/-- TarotPage renders one tarot-card element per record of reading.cards
(App.js lines 883-915); we model each rendered element by the id it
displays and whether the Reversed tag shows. -/
def renderReadingCards (reading : ReadingData) : List (Nat × Bool) :=
  reading.cards.map (fun c => (c.id, c.reversed))

/-! ## Page state and handlers -/

/-- A user-visible effect of a handler. -/
inductive Effect
| toastError (message : String)
| toastSuccess (message : String)
| navigate (path : String)
| network (req : Request)
deriving DecidableEq, Repr

/-- The TarotPage component state. -/
structure TarotState where
  question : String
  spreadType : String
  reading : Option ReadingData
  loading : Bool
  flippedCards : List Nat
deriving DecidableEq, Repr

/-- Embedding of TarotPage.drawCards (App.js lines 773-809) as the settled
state after the handler and its flip timers finish, paired with the
ordered list of effects. A non-premium user selecting celtic_cross gets an
error toast and a navigation to /premium before any state update or
request. Otherwise the draw request is issued; on success the reading is
stored and the timers eventually flip every card index; on failure an
error toast shows. -/
def drawCards (token : String) (userPremiumFlag : Bool)
    (res : Fetched ReadingData) (s : TarotState) : TarotState × List Effect :=
  if userPremiumFlag = false ∧ s.spreadType = "celtic_cross" then
    (s, [.toastError ("Celtic Cross requires Premium"), .navigate ("/premium")])
  else
    match res with
    | .ok data =>
      ({ s with loading := false, reading := some data,
                flippedCards := List.range data.cards.length },
       [.network (tarotDrawReq token s.spreadType s.question)])
    | .notOk =>
      ({ s with loading := false, reading := none, flippedCards := [] },
       [.network (tarotDrawReq token s.spreadType s.question),
        .toastError ("The cards are not aligned. Try again.")])
    | .netErr =>
      ({ s with loading := false, reading := none, flippedCards := [] },
       [.network (tarotDrawReq token s.spreadType s.question),
        .toastError ("The cards are not aligned. Try again.")])

/-- The JavaScript String.prototype.trim whitespace class (the characters
relevant to this code base: ASCII whitespace and no-break space). -/
def isJsWhitespace (c : Char) : Bool :=
  c = ' ' || c = '\t' || c = '\n' || c = '\r' || c = '\x0b' || c = '\x0c' || c = '\xa0'

/-- JavaScript String.prototype.trim: strip leading and trailing
whitespace. -/
def jsTrim (s : String) : String :=
  ⟨((s.data.dropWhile isJsWhitespace).reverse.dropWhile isJsWhitespace).reverse⟩

/-- The VoiceOracle component state the handler touches. -/
structure OracleState where
  messages : List Msg
  input : String
  loading : Bool
deriving DecidableEq, Repr

/-- Embedding of VoiceOracle.sendMessage (App.js lines 536-574) as the
settled state after the fetch resolves, paired with the effects. A blank
(empty after trim) text returns at once with no state change and no
request. Otherwise the user message is appended, the input cleared, and
the chat or speak endpoint called; on success the oracle reply is
appended, on failure an error toast shows. -/
def sendMessage (token : String) (audioEnabled : Bool) (text : String)
    (res : Fetched (String × Option String)) (s : OracleState) : OracleState × List Effect :=
  if jsTrim text = "" then (s, [])
  else
    let req := if audioEnabled then oracleSpeakReq token text else oracleChatReq token text
    let s1 : OracleState :=
      { messages := s.messages ++ [⟨"user", text, none⟩], input := "", loading := true }
    match res with
    | .ok data =>
      ({ s1 with messages := s1.messages ++ [⟨"oracle", data.1, data.2⟩], loading := false },
       [.network req])
    | .notOk =>
      ({ s1 with loading := false },
       [.network req, .toastError ("The Oracle is meditating. Try again.")])
    | .netErr =>
      ({ s1 with loading := false },
       [.network req, .toastError ("The Oracle is meditating. Try again.")])

/-- The Community component state the handler touches. -/
structure CommunityState where
  posts : List Post
  newPost : String
  category : String
deriving DecidableEq, Repr

/-- Embedding of Community.createPost (App.js lines 1199-1221). A blank
newPost returns at once with no state change and no request. Otherwise the
post request is issued; on ok the returned post is prepended and the input
cleared; a non-ok response changes nothing further; a network error shows
an error toast. -/
def createPost (token : String) (res : Fetched Post)
    (s : CommunityState) : CommunityState × List Effect :=
  if jsTrim s.newPost = "" then (s, [])
  else
    match res with
    | .ok post =>
      ({ s with posts := post :: s.posts, newPost := "" },
       [.network (createPostReq token s.newPost s.category),
        .toastSuccess ("Your insight has been shared")])
    | .notOk =>
      (s, [.network (createPostReq token s.newPost s.category)])
    | .netErr =>
      (s, [.network (createPostReq token s.newPost s.category),
           .toastError ("Failed to share")])

/-! ## Session operations and the premium flag -/

/-- Embedding of setUser with an object spread setting is_premium true
(App.js lines 1503 and 1645). A JavaScript spread of a null user yields an
object carrying only the premium flag; the other fields default to the
empty string. -/
def setPremiumTrue (u : Option UserRec) : Option UserRec :=
  match u with
  | some v => some { v with is_premium := true }
  | none => some ⟨"", "", true⟩

/-- The client state a session operates on. -/
structure ClientState where
  token : Option String
  user : Option UserRec
  soulprint : Option String
  oracle : OracleState
  community : CommunityState
  tarot : TarotState
  results : List DbItem
  paymentViewStatus : String
deriving DecidableEq, Repr

/-- The operations of the frontend, each carrying the server response its
handler consumes and the user inputs it reads. -/
inductive Op
| fetchUserOp (res : Fetched UserRec)
| loginOp (res : AuthResponse)
| registerOp (res : AuthResponse)
| logoutOp
| checkPaymentStatusOp (res : Fetched String)
| pollPaymentStatusOp (res : Fetched String)
| drawCardsOp (res : Fetched ReadingData)
| sendMessageOp (text : String) (audioEnabled : Bool) (res : Fetched (String × Option String))
| createPostOp (res : Fetched Post)
| fetchPostsOp (res : Fetched (List Post))
| searchOp (query category : String) (res : Fetched (List DbItem))
| fetchSoulprintOp (res : Fetched String)
| startCheckoutOp (res : Fetched String)
deriving DecidableEq, Repr

/-- The state update of each operation, embedded from the respective
handler in App.js.
fetchUser (lines 32-48): ok installs the server user record, a non-ok
response calls logout, a network error only logs.
login and register (lines 50-79): an ok response installs the returned
token and user; a thrown error leaves the state (the page only toasts).
logout (lines 81-85): clears the token and the user.
checkPaymentStatus (lines 1493-1511) and one resolved step of
pollPaymentStatus (lines 1630-1654): an ok response whose payment_status
is paid marks the user premium (the poll also sets its view status);
anything else leaves the user unchanged.
The feature handlers update only their component state. -/
def applyOp (op : Op) (s : ClientState) : ClientState :=
  match op with
  | .fetchUserOp (.ok data) => { s with user := some data }
  | .fetchUserOp .notOk => { s with token := none, user := none }
  | .fetchUserOp .netErr => s
  | .loginOp res =>
    if res.ok then { s with token := some res.token, user := some res.user } else s
  | .registerOp res =>
    if res.ok then { s with token := some res.token, user := some res.user } else s
  | .logoutOp => { s with token := none, user := none }
  | .checkPaymentStatusOp (.ok ps) =>
    if ps = "paid" then { s with user := setPremiumTrue s.user } else s
  | .checkPaymentStatusOp .notOk => s
  | .checkPaymentStatusOp .netErr => s
  | .pollPaymentStatusOp (.ok ps) =>
    if ps = "paid" then
      { s with user := setPremiumTrue s.user, paymentViewStatus := "success" }
    else s
  | .pollPaymentStatusOp .notOk => s
  | .pollPaymentStatusOp .netErr => s
  | .drawCardsOp res =>
    { s with tarot :=
        (drawCards (s.token.getD ("")) ((s.user.map (fun u => u.is_premium)).getD false)
          res s.tarot).1 }
  | .sendMessageOp text audioEnabled res =>
    { s with oracle := (sendMessage (s.token.getD ("")) audioEnabled text res s.oracle).1 }
  | .createPostOp res =>
    { s with community := (createPost (s.token.getD ("")) res s.community).1 }
  | .fetchPostsOp (.ok posts) => { s with community := { s.community with posts := posts } }
  | .fetchPostsOp .notOk => s
  | .fetchPostsOp .netErr => s
  | .searchOp _ _ (.ok items) => { s with results := items }
  | .searchOp _ _ .notOk => s
  | .searchOp _ _ .netErr => s
  | .fetchSoulprintOp (.ok sp) => { s with soulprint := some sp }
  | .fetchSoulprintOp .notOk => s
  | .fetchSoulprintOp .netErr => s
  | .startCheckoutOp _ => s

/-- The two payment-status checks. -/
def isPaymentCheck : Op → Bool
| .checkPaymentStatusOp _ => true
| .pollPaymentStatusOp _ => true
| _ => false

/-- The auth-session operations, which install or clear the whole
server-supplied user record rather than editing fields of the current
one. -/
def isAuthSessionOp : Op → Bool
| .fetchUserOp _ => true
| .loginOp _ => true
| .registerOp _ => true
| .logoutOp => true
| _ => false

/-- The is_premium flag of the current user record, if any. -/
def premiumFlag (s : ClientState) : Option Bool :=
  s.user.map (fun u => u.is_premium)

/-- A concrete client state with a premium user, used to exhibit
counterexamples. -/
def premiumState : ClientState :=
  { token := some ("tok"),
    user := some ⟨"seeker@yky.app", "Seeker", true⟩,
    soulprint := none,
    oracle := ⟨[], "", false⟩,
    community := ⟨[], "", "general"⟩,
    tarot := ⟨"", "single", none, false, []⟩,
    results := [],
    paymentViewStatus := "checking" }

/-- A concrete TarotPage state with the celtic_cross spread selected, used
as a witness input. -/
def celticState : TarotState :=
  ⟨"", "celtic_cross", none, false, []⟩

lemma pollPaymentStatus_ge (r : Nat → PollResponse) (attempts : Nat) (h : 5 ≤ attempts) :
    pollPaymentStatus r attempts = [.setStatus ("timeout")] := by
  rw [pollPaymentStatus]
  simp [h]

lemma pollPaymentStatus_lt (r : Nat → PollResponse) (attempts : Nat) (h : attempts < 5) :
    pollPaymentStatus r attempts =
      .request attempts ::
      (match r attempts with
       | .ok ps =>
         if ps = "paid" then [.setStatus ("success"), .setPremium]
         else .delay 2000 :: pollPaymentStatus r (attempts + 1)
       | .notOk => .delay 2000 :: pollPaymentStatus r (attempts + 1)
       | .netErr => .delay 2000 :: pollPaymentStatus r (attempts + 1)) := by
  rw [pollPaymentStatus]
  simp [Nat.not_le.mpr h]

lemma countRequests_le (r : Nat → PollResponse) :
    ∀ k attempts, 5 - attempts ≤ k → countRequests (pollPaymentStatus r attempts) ≤ k := by
  intro k
  induction k with
  | zero =>
    intro attempts h
    have h5 : 5 ≤ attempts := by omega
    rw [pollPaymentStatus_ge r attempts h5]
    simp [countRequests, List.countP, List.countP.go, isRequest]
  | succ k ih =>
    intro attempts h
    by_cases h5 : 5 ≤ attempts
    · rw [pollPaymentStatus_ge r attempts h5]
      simp [countRequests, List.countP, List.countP.go, isRequest]
    · have hlt : attempts < 5 := by omega
      rw [pollPaymentStatus_lt r attempts hlt]
      have hrec : countRequests (pollPaymentStatus r (attempts + 1)) ≤ k := by
        apply ih
        omega
      cases hr : r attempts with
      | ok ps =>
        by_cases hp : ps = "paid"
        · simp [countRequests, hp, List.countP_cons, isRequest]
        · simp only [hp, if_false]
          simp [countRequests, List.countP_cons, isRequest] at hrec ⊢
          omega
      | notOk =>
        simp [countRequests, List.countP_cons, isRequest] at hrec ⊢
        omega
      | netErr =>
        simp [countRequests, List.countP_cons, isRequest] at hrec ⊢
        omega

lemma delay_eq_2000 (r : Nat → PollResponse) :
    ∀ k attempts, 5 - attempts ≤ k →
    ∀ d, PollEvent.delay d ∈ pollPaymentStatus r attempts → d = 2000 := by
  intro k
  induction k with
  | zero =>
    intro attempts h d hd
    have h5 : 5 ≤ attempts := by omega
    rw [pollPaymentStatus_ge r attempts h5] at hd
    simp at hd
  | succ k ih =>
    intro attempts h d hd
    by_cases h5 : 5 ≤ attempts
    · rw [pollPaymentStatus_ge r attempts h5] at hd
      simp at hd
    · have hlt : attempts < 5 := by omega
      rw [pollPaymentStatus_lt r attempts hlt] at hd
      have hrec : ∀ d, PollEvent.delay d ∈ pollPaymentStatus r (attempts + 1) → d = 2000 := by
        intro d hd
        exact ih (attempts + 1) (by omega) d hd
      cases hr : r attempts with
      | ok ps =>
        rw [hr] at hd
        by_cases hp : ps = "paid"
        · simp [hp] at hd
        · simp only [hp, if_false, List.mem_cons] at hd
          rcases hd with h1 | h1 | h1
          · cases h1
          · exact (PollEvent.delay.injEq _ _).mp h1.symm |>.symm ▸ rfl
          · exact hrec d h1
      | notOk =>
        rw [hr] at hd
        simp only [List.mem_cons] at hd
        rcases hd with h1 | h1 | h1
        · cases h1
        · exact (PollEvent.delay.injEq _ _).mp h1.symm |>.symm ▸ rfl
        · exact hrec d h1
      | netErr =>
        rw [hr] at hd
        simp only [List.mem_cons] at hd
        rcases hd with h1 | h1 | h1
        · cases h1
        · exact (PollEvent.delay.injEq _ _).mp h1.symm |>.symm ▸ rfl
        · exact hrec d h1

lemma poll_ne_nil (r : Nat → PollResponse) (attempts : Nat) :
    pollPaymentStatus r attempts ≠ [] := by
  by_cases h5 : 5 ≤ attempts
  · rw [pollPaymentStatus_ge r attempts h5]
    simp
  · rw [pollPaymentStatus_lt r attempts (by omega)]
    simp

lemma poll_timeout (r : Nat → PollResponse) :
    ∀ k attempts, 5 - attempts ≤ k →
    (∀ i, attempts ≤ i → i < 5 → respIsPaid (r i) = false) →
    (pollPaymentStatus r attempts).getLast? = some (.setStatus ("timeout")) := by
  intro k
  induction k with
  | zero =>
    intro attempts h hn
    have h5 : 5 ≤ attempts := by omega
    rw [pollPaymentStatus_ge r attempts h5]
    rfl
  | succ k ih =>
    intro attempts h hn
    by_cases h5 : 5 ≤ attempts
    · rw [pollPaymentStatus_ge r attempts h5]
      rfl
    · have hlt : attempts < 5 := by omega
      rw [pollPaymentStatus_lt r attempts hlt]
      have hrec : (pollPaymentStatus r (attempts + 1)).getLast? = some (.setStatus ("timeout")) := by
        apply ih (attempts + 1) (by omega)
        intro i hi1 hi2
        exact hn i (by omega) hi2
      have hnp : respIsPaid (r attempts) = false := hn attempts (le_refl _) hlt
      obtain ⟨c, cs, hc⟩ := List.exists_cons_of_ne_nil (poll_ne_nil r (attempts + 1))
      cases hr : r attempts with
      | ok ps =>
        have hp : (ps = "paid") = False := by
          rw [hr] at hnp
          simp [respIsPaid] at hnp
          simp [hnp]
        simp only [hp, decide_False, Bool.false_eq_true, if_false]
        rw [hc, List.getLast?_cons_cons, List.getLast?_cons_cons, ← hc, hrec]
      | notOk =>
        rw [hc, List.getLast?_cons_cons, List.getLast?_cons_cons, ← hc, hrec]
      | netErr =>
        rw [hc, List.getLast?_cons_cons, List.getLast?_cons_cons, ← hc, hrec]

lemma poll_premium_of_none (r : Nat → PollResponse) :
    ∀ k attempts, 5 - attempts ≤ k →
    (∀ i, attempts ≤ i → i < 5 → respIsPaid (r i) = false) →
    countPremium (pollPaymentStatus r attempts) = 0 := by
  intro k
  induction k with
  | zero =>
    intro attempts h hn
    have h5 : 5 ≤ attempts := by omega
    rw [pollPaymentStatus_ge r attempts h5]
    simp [countPremium, List.countP, List.countP.go, isPremiumSet]
  | succ k ih =>
    intro attempts h hn
    by_cases h5 : 5 ≤ attempts
    · rw [pollPaymentStatus_ge r attempts h5]
      simp [countPremium, List.countP, List.countP.go, isPremiumSet]
    · have hlt : attempts < 5 := by omega
      rw [pollPaymentStatus_lt r attempts hlt]
      have hrec : countPremium (pollPaymentStatus r (attempts + 1)) = 0 := by
        apply ih (attempts + 1) (by omega)
        intro i hi1 hi2
        exact hn i (by omega) hi2
      have hnp : respIsPaid (r attempts) = false := hn attempts (le_refl _) hlt
      cases hr : r attempts with
      | ok ps =>
        have hp : ¬ ps = "paid" := by
          rw [hr] at hnp
          simpa [respIsPaid] using hnp
        simp only [hp, if_false]
        rw [countPremium, List.countP_cons, List.countP_cons]
        rw [countPremium] at hrec
        simp [isPremiumSet, hrec]
      | notOk =>
        rw [countPremium, List.countP_cons, List.countP_cons]
        rw [countPremium] at hrec
        simp [isPremiumSet, hrec]
      | netErr =>
        rw [countPremium, List.countP_cons, List.countP_cons]
        rw [countPremium] at hrec
        simp [isPremiumSet, hrec]

lemma poll_premium_of_paid (r : Nat → PollResponse) :
    ∀ k attempts, 5 - attempts ≤ k →
    (∃ i, attempts ≤ i ∧ i < 5 ∧ respIsPaid (r i) = true) →
    countPremium (pollPaymentStatus r attempts) = 1 := by
  intro k
  induction k with
  | zero =>
    intro attempts h hex
    obtain ⟨i, hi1, hi2, _⟩ := hex
    omega
  | succ k ih =>
    intro attempts h hex
    have hlt : attempts < 5 := by
      obtain ⟨i, hi1, hi2, _⟩ := hex
      omega
    rw [pollPaymentStatus_lt r attempts hlt]
    by_cases hpaid : respIsPaid (r attempts) = true
    · cases hr : r attempts with
      | ok ps =>
        have hp : ps = "paid" := by
          rw [hr] at hpaid
          simpa [respIsPaid] using hpaid
        simp [hp, countPremium, List.countP_cons, List.countP, List.countP.go, isPremiumSet]
      | notOk =>
        rw [hr] at hpaid
        simp [respIsPaid] at hpaid
      | netErr =>
        rw [hr] at hpaid
        simp [respIsPaid] at hpaid
    · have hrec : countPremium (pollPaymentStatus r (attempts + 1)) = 1 := by
        apply ih (attempts + 1) (by omega)
        obtain ⟨i, hi1, hi2, hi3⟩ := hex
        refine ⟨i, ?_, hi2, hi3⟩
        rcases Nat.eq_or_lt_of_le hi1 with heq | hlt2
        · rw [← heq] at hi3
          exact absurd hi3 hpaid
        · omega
      cases hr : r attempts with
      | ok ps =>
        have hp : ¬ ps = "paid" := by
          rw [hr] at hpaid
          simpa [respIsPaid] using hpaid
        simp only [hp, if_false]
        rw [countPremium, List.countP_cons, List.countP_cons]
        rw [countPremium] at hrec
        simp [isPremiumSet, hrec]
      | notOk =>
        rw [countPremium, List.countP_cons, List.countP_cons]
        rw [countPremium] at hrec
        simp [isPremiumSet, hrec]
      | netErr =>
        rw [countPremium, List.countP_cons, List.countP_cons]
        rw [countPremium] at hrec
        simp [isPremiumSet, hrec]

lemma poll_premium_last (r : Nat → PollResponse) :
    ∀ k attempts, 5 - attempts ≤ k →
    PollEvent.setPremium ∈ pollPaymentStatus r attempts →
    (pollPaymentStatus r attempts).getLast? = some .setPremium := by
  intro k
  induction k with
  | zero =>
    intro attempts h hm
    have h5 : 5 ≤ attempts := by omega
    rw [pollPaymentStatus_ge r attempts h5] at hm ⊢
    simp at hm
  | succ k ih =>
    intro attempts h hm
    by_cases h5 : 5 ≤ attempts
    · rw [pollPaymentStatus_ge r attempts h5] at hm ⊢
      simp at hm
    · have hlt : attempts < 5 := by omega
      rw [pollPaymentStatus_lt r attempts hlt] at hm ⊢
      obtain ⟨c, cs, hc⟩ := List.exists_cons_of_ne_nil (poll_ne_nil r (attempts + 1))
      cases hr : r attempts with
      | ok ps =>
        by_cases hp : ps = "paid"
        · simp [hp]
        · rw [hr] at hm
          simp only [hp, if_false, List.mem_cons] at hm
          rcases hm with h1 | h1 | h1
          · cases h1
          · cases h1
          · have := ih (attempts + 1) (by omega) h1
            simp only [hp, if_false]
            rw [hc, List.getLast?_cons_cons, List.getLast?_cons_cons, ← hc, this]
      | notOk =>
        rw [hr] at hm
        simp only [List.mem_cons] at hm
        rcases hm with h1 | h1 | h1
        · cases h1
        · cases h1
        · have := ih (attempts + 1) (by omega) h1
          rw [hc, List.getLast?_cons_cons, List.getLast?_cons_cons, ← hc, this]
      | netErr =>
        rw [hr] at hm
        simp only [List.mem_cons] at hm
        rcases hm with h1 | h1 | h1
        · cases h1
        · cases h1
        · have := ih (attempts + 1) (by omega) h1
          rw [hc, List.getLast?_cons_cons, List.getLast?_cons_cons, ← hc, this]

/-! ## Claim theorems -/

/-- Claim C1: the payment-status poll in PaymentSuccess is a fixed-count
retry with a constant delay: every run issues at most 5 status requests,
every delay scheduled between consecutive attempts is the constant 2000
milliseconds with no backoff, and when no attempt observes status paid the
run terminates by setting the displayed status to timeout. -/
theorem claim1_poll_fixed_retry (r : Nat → PollResponse) :
    countRequests (pollPaymentStatus r 0) ≤ 5 ∧
    (∀ d, PollEvent.delay d ∈ pollPaymentStatus r 0 → d = 2000) ∧
    ((∀ i, i < 5 → respIsPaid (r i) = false) →
      (pollPaymentStatus r 0).getLast? = some (.setStatus ("timeout"))) := by
  refine ⟨countRequests_le r 5 0 (by omega),
    fun d hd => delay_eq_2000 r 5 0 (by omega) d hd, ?_⟩
  intro hn
  exact poll_timeout r 5 0 (by omega) (fun i _ hi2 => hn i hi2)

/-- Witness for claim C1 at the all-non-ok response sequence. -/
theorem claim1_poll_fixed_retry_witness :
    countRequests (pollPaymentStatus (fun _ => PollResponse.notOk) 0) ≤ 5 ∧
    (pollPaymentStatus (fun _ => PollResponse.notOk) 0).getLast? =
      some (PollEvent.setStatus ("timeout")) := by
  have h := claim1_poll_fixed_retry (fun _ => PollResponse.notOk)
  exact ⟨h.1, h.2.2 (fun i hi => rfl)⟩

/-- Claim C2: within one polling run the premium flag is set exactly once
when some attempt observes payment_status paid and never otherwise, and
the setUser call that sets it is the last event of the run (the poll stops
immediately). -/
theorem claim2_premium_set_once (r : Nat → PollResponse) :
    countPremium (pollPaymentStatus r 0) ≤ 1 ∧
    ((∃ i, i < 5 ∧ respIsPaid (r i) = true) → countPremium (pollPaymentStatus r 0) = 1) ∧
    ((∀ i, i < 5 → respIsPaid (r i) = false) → countPremium (pollPaymentStatus r 0) = 0) ∧
    (PollEvent.setPremium ∈ pollPaymentStatus r 0 →
      (pollPaymentStatus r 0).getLast? = some PollEvent.setPremium) := by
  have hle : countPremium (pollPaymentStatus r 0) ≤ 1 := by
    by_cases hex : ∃ i, i < 5 ∧ respIsPaid (r i) = true
    · obtain ⟨i, h1, h2⟩ := hex
      exact (poll_premium_of_paid r 5 0 (by omega) ⟨i, Nat.zero_le i, h1, h2⟩).le
    · push_neg at hex
      have h0 := poll_premium_of_none r 5 0 (by omega)
        (fun i _ hi => Bool.eq_false_iff.mpr (hex i hi))
      omega
  refine ⟨hle, ?_, ?_, ?_⟩
  · rintro ⟨i, h1, h2⟩
    exact poll_premium_of_paid r 5 0 (by omega) ⟨i, Nat.zero_le i, h1, h2⟩
  · intro hn
    exact poll_premium_of_none r 5 0 (by omega) (fun i _ hi => hn i hi)
  · intro hm
    exact poll_premium_last r 5 0 (by omega) hm

/-- Witness for claim C2 at an immediately-paid run and at an all-non-ok
run. -/
theorem claim2_premium_set_once_witness :
    countPremium (pollPaymentStatus (fun _ => PollResponse.ok ("paid")) 0) = 1 ∧
    countPremium (pollPaymentStatus (fun _ => PollResponse.notOk) 0) = 0 := by
  have h1 := claim2_premium_set_once (fun _ => PollResponse.ok ("paid"))
  have h2 := claim2_premium_set_once (fun _ => PollResponse.notOk)
  exact ⟨h1.2.1 ⟨0, by omega, by decide⟩, h2.2.2.1 (fun i hi => rfl)⟩

/-- Claim C3 is refuted: fetchUser installs the server-supplied user
record wholesale when /api/auth/me answers ok, so a server record carrying
is_premium false turns the flag from true to false although fetchUser is
not a payment-status check. -/
theorem claim3_counterexample :
    isPaymentCheck (Op.fetchUserOp (.ok ⟨"seeker@yky.app", "Seeker", false⟩)) = false ∧
    premiumFlag premiumState = some true ∧
    premiumFlag (applyOp (Op.fetchUserOp (.ok ⟨"seeker@yky.app", "Seeker", false⟩)) premiumState)
      = some false :=
  ⟨rfl, rfl, rfl⟩

/-- Claim C3 amended: among the operations of an authenticated session
other than the auth-session operations (fetchUser, login, register and
logout, which install or clear the whole server-supplied user record),
the only operations that change the user record are the two
payment-status checks; each sets is_premium to true exactly when the
fetched payment_status equals paid and otherwise leaves the user record
unchanged, and none of these operations ever turns a true premium flag
false. -/
theorem claim3_amended (op : Op) (s : ClientState) (h : isAuthSessionOp op = false) :
    ((applyOp op s).user = s.user ∨
      ∃ ps, (op = Op.checkPaymentStatusOp (Fetched.ok ps) ∨
              op = Op.pollPaymentStatusOp (Fetched.ok ps)) ∧
        ps = "paid" ∧ (applyOp op s).user = setPremiumTrue s.user) ∧
    (isPaymentCheck op = false → (applyOp op s).user = s.user) ∧
    (premiumFlag s = some true → premiumFlag (applyOp op s) = some true) := by
  cases op with
  | fetchUserOp res => simp [isAuthSessionOp] at h
  | loginOp res => simp [isAuthSessionOp] at h
  | registerOp res => simp [isAuthSessionOp] at h
  | logoutOp => simp [isAuthSessionOp] at h
  | checkPaymentStatusOp res =>
    cases res with
    | ok ps =>
      by_cases hp : ps = "paid"
      · refine ⟨Or.inr ⟨ps, Or.inl rfl, hp, by simp [applyOp, hp]⟩, ?_, ?_⟩
        · intro hc
          simp [isPaymentCheck] at hc
        · intro hprem
          cases hu : s.user with
          | none => simp [premiumFlag, hu] at hprem
          | some u => simp [applyOp, hp, premiumFlag, setPremiumTrue, hu]
      · refine ⟨Or.inl (by simp [applyOp, hp]), fun _ => by simp [applyOp, hp], ?_⟩
        intro hprem
        simpa [applyOp, hp] using hprem
    | notOk => exact ⟨Or.inl rfl, fun _ => rfl, fun hp => hp⟩
    | netErr => exact ⟨Or.inl rfl, fun _ => rfl, fun hp => hp⟩
  | pollPaymentStatusOp res =>
    cases res with
    | ok ps =>
      by_cases hp : ps = "paid"
      · refine ⟨Or.inr ⟨ps, Or.inr rfl, hp, by simp [applyOp, hp]⟩, ?_, ?_⟩
        · intro hc
          simp [isPaymentCheck] at hc
        · intro hprem
          cases hu : s.user with
          | none => simp [premiumFlag, hu] at hprem
          | some u => simp [applyOp, hp, premiumFlag, setPremiumTrue, hu]
      · refine ⟨Or.inl (by simp [applyOp, hp]), fun _ => by simp [applyOp, hp], ?_⟩
        intro hprem
        simpa [applyOp, hp] using hprem
    | notOk => exact ⟨Or.inl rfl, fun _ => rfl, fun hp => hp⟩
    | netErr => exact ⟨Or.inl rfl, fun _ => rfl, fun hp => hp⟩
  | drawCardsOp res => exact ⟨Or.inl rfl, fun _ => rfl, fun hp => hp⟩
  | sendMessageOp text audioEnabled res => exact ⟨Or.inl rfl, fun _ => rfl, fun hp => hp⟩
  | createPostOp res => exact ⟨Or.inl rfl, fun _ => rfl, fun hp => hp⟩
  | fetchPostsOp res =>
    cases res with
    | ok posts => exact ⟨Or.inl rfl, fun _ => rfl, fun hp => hp⟩
    | notOk => exact ⟨Or.inl rfl, fun _ => rfl, fun hp => hp⟩
    | netErr => exact ⟨Or.inl rfl, fun _ => rfl, fun hp => hp⟩
  | searchOp query category res =>
    cases res with
    | ok items => exact ⟨Or.inl rfl, fun _ => rfl, fun hp => hp⟩
    | notOk => exact ⟨Or.inl rfl, fun _ => rfl, fun hp => hp⟩
    | netErr => exact ⟨Or.inl rfl, fun _ => rfl, fun hp => hp⟩
  | fetchSoulprintOp res =>
    cases res with
    | ok sp => exact ⟨Or.inl rfl, fun _ => rfl, fun hp => hp⟩
    | notOk => exact ⟨Or.inl rfl, fun _ => rfl, fun hp => hp⟩
    | netErr => exact ⟨Or.inl rfl, fun _ => rfl, fun hp => hp⟩
  | startCheckoutOp res => exact ⟨Or.inl rfl, fun _ => rfl, fun hp => hp⟩

/-- Witness for the amended claim C3 at a concrete feature operation and
state. -/
theorem claim3_amended_witness :
    (applyOp (Op.drawCardsOp Fetched.notOk) premiumState).user = premiumState.user ∧
    premiumFlag (applyOp (Op.drawCardsOp Fetched.notOk) premiumState) = some true := by
  have h := claim3_amended (Op.drawCardsOp Fetched.notOk) premiumState rfl
  exact ⟨h.2.1 rfl, h.2.2 rfl⟩

/-- Claim C4: for every protected route, when loading is finished and no
user is authenticated, ProtectedRoute renders a replace Navigate to /auth
and renders neither the page content nor the navigation bar. -/
theorem claim4_unauthenticated_redirect (path : String) (el : RouteElement)
    (hmem : (path, el) ∈ routes) (p : String) (hel : el = RouteElement.wrapped p) :
    renderRoute el false none = Render.navigateTo ("/auth") true ∧
    ∀ withNav content, renderRoute el false none ≠ Render.page withNav content := by
  subst hel
  refine ⟨rfl, ?_⟩
  intro withNav content hcontra
  simp [renderRoute, protectedRoute] at hcontra

/-- Witness for claim C4 at the /dashboard route. -/
theorem claim4_unauthenticated_redirect_witness :
    ("/dashboard", RouteElement.wrapped ("Dashboard")) ∈ routes ∧
    renderRoute (RouteElement.wrapped ("Dashboard")) false none =
      Render.navigateTo ("/auth") true := by
  have hmem : ("/dashboard", RouteElement.wrapped ("Dashboard")) ∈ routes := by decide
  exact ⟨hmem,
    (claim4_unauthenticated_redirect ("/dashboard") _ hmem ("Dashboard") rfl).1⟩

lemma tarotDraw_length (table : Nat → String) (coins : Nat → Bool) (st : String)
    (perm : List Nat) (hlen : perm.length = 78) (hc : spreadCardCount st ≤ 78) :
    (tarotDraw table st perm coins).length = spreadCardCount st := by
  simp [tarotDraw, List.length_take, hlen]
  omega

lemma renderReadingCards_length (re : ReadingData) :
    (renderReadingCards re).length = re.cards.length := by
  simp [renderReadingCards]

/-- Claim C5: a card draw returns exactly the card count configured for
the chosen spread in the frontend spreads table (1 for single, 3 for
three_card, 10 for celtic_cross), and TarotPage renders one card element
per record of the returned reading. The draw endpoint itself is modelled
from the spec, as a sample without replacement from the fixed 78-card
table. -/
theorem claim5_draw_count (table : Nat → String) (coins : Nat → Bool)
    (sp : Spread) (hsp : sp ∈ spreads) (perm : List Nat) (hlen : perm.length = 78) :
    (tarotDraw table sp.id perm coins).length = sp.cards ∧
    (renderReadingCards ⟨tarotDraw table sp.id perm coins, ""⟩).length = sp.cards ∧
    spreadCardCount ("single") = 1 ∧ spreadCardCount ("three_card") = 3 ∧
    spreadCardCount ("celtic_cross") = 10 := by
  fin_cases hsp <;>
    exact ⟨tarotDraw_length table coins _ perm hlen (by decide),
      by rw [renderReadingCards_length]
         exact tarotDraw_length table coins _ perm hlen (by decide),
      rfl, rfl, rfl⟩

/-- Witness for claim C5 at the single spread and the identity
permutation. -/
theorem claim5_draw_count_witness :
    (tarotDraw (fun _ => "") ("single") (List.range 78) (fun _ => false)).length = 1 := by
  have hmem : (⟨"single", "Single Card", 1, false⟩ : Spread) ∈ spreads := by decide
  have h := claim5_draw_count (fun _ => "") (fun _ => false)
    ⟨"single", "Single Card", 1, false⟩ hmem (List.range 78) (by simp)
  exact h.1

/-- Claim C6 is refuted: the community feed fetch is issued with no
Authorization header at all, so not every post-authentication backend
request carries the bearer token. -/
theorem claim6_counterexample :
    ¬ (∀ req ∈ authedRequests ("tok") ("hi") ("single") ("q") ("b64") ("post")
        ("general") ("herb") ("all") ("sess") ("origin"), HasBearer req ("tok")) := by
  intro h
  have hmem : feedReq ∈ authedRequests ("tok") ("hi") ("single") ("q") ("b64") ("post")
      ("general") ("herb") ("all") ("sess") ("origin") := by
    simp [authedRequests]
  have hb := h feedReq hmem
  simp [HasBearer, feedReq, bearer] at hb

/-- Claim C6 amended: every backend request issued after authentication
carries the Authorization header Bearer token, except the community feed
fetch and the database search, which are issued with no Authorization
header at all. -/
theorem claim6_amended (token message spread_type question audio_base64 content
    postCategory query dbCategory session_id origin_url : String) :
    (∀ req ∈ authedRequests token message spread_type question audio_base64 content
        postCategory query dbCategory session_id origin_url,
      req = feedReq ∨ req = searchReq query dbCategory ∨ HasBearer req token) ∧
    feedReq.headers = [] ∧ (searchReq query dbCategory).headers = [] := by
  refine ⟨?_, rfl, rfl⟩
  intro req hreq
  simp only [authedRequests, List.mem_cons, List.not_mem_nil, or_false] at hreq
  rcases hreq with h | h | h | h | h | h | h | h | h | h | h | h <;> subst h <;>
    simp [HasBearer, fetchUserReq, soulprintReq, oracleChatReq, oracleSpeakReq,
      oracleListenReq, tarotDrawReq, bioScanReq, feedReq, createPostReq,
      checkoutReq, paymentStatusReq, searchReq, bearer]

/-- Witness for the amended claim C6 at the authenticated profile
request. -/
theorem claim6_amended_witness :
    fetchUserReq ("tok") = feedReq ∨ fetchUserReq ("tok") = searchReq ("q") ("all") ∨
      HasBearer (fetchUserReq ("tok")) ("tok") := by
  have h := claim6_amended ("tok") ("hi") ("single") ("q2") ("b64") ("post")
    ("general") ("q") ("all") ("sess") ("origin")
  exact h.1 (fetchUserReq ("tok")) (by simp [authedRequests])

/-- Claim C7 is refuted: login never reads the server error body and
always throws the fixed message Invalid credentials, so a 4xx carrying a
server-supplied message is not surfaced with that message. -/
theorem claim7_counterexample :
    login ⟨false, some ("Account locked"), "", ⟨"", "", false⟩⟩ =
      Except.error ("Invalid credentials") ∧
    ("Invalid credentials" : String) ≠ "Account locked" := by
  exact ⟨rfl, by decide⟩

/-- Claim C7 amended: for every non-ok response, login throws the fixed
message Invalid credentials regardless of the server body, register throws
the server-supplied detail field (falling back to Registration failed when
it is missing or empty), and the auth page displays the thrown message as
an error toast. -/
theorem claim7_amended (res : AuthResponse) (h : res.ok = false) :
    login res = Except.error ("Invalid credentials") ∧
    register res = Except.error (jsOrString res.detail ("Registration failed")) ∧
    (∀ d, res.detail = some d → d ≠ "" → register res = Except.error d) ∧
    handleSubmit true res = UiOutcome.errorToast ("Invalid credentials") ∧
    handleSubmit false res = UiOutcome.errorToast (jsOrString res.detail ("Registration failed")) := by
  refine ⟨by simp [login, h], by simp [register, h], ?_, ?_, ?_⟩
  · intro d hd hne
    simp [register, h, jsOrString, hd, hne]
  · simp [handleSubmit, login, h]
  · simp [handleSubmit, register, h]

/-- Witness for the amended claim C7 at a concrete failed response. -/
theorem claim7_amended_witness :
    login ⟨false, some ("Wrong password"), "", ⟨"", "", false⟩⟩ =
      Except.error ("Invalid credentials") ∧
    register ⟨false, some ("Wrong password"), "", ⟨"", "", false⟩⟩ =
      Except.error ("Wrong password") := by
  have h := claim7_amended ⟨false, some ("Wrong password"), "", ⟨"", "", false⟩⟩ rfl
  exact ⟨h.1, h.2.2.1 ("Wrong password") rfl (by decide)⟩

/-- Claim C8 is refuted: the bio-scan voice upload is sent as a JSON body
carrying base64 audio, not as binary or form data. -/
theorem claim8_counterexample :
    ¬ (∀ req ∈ audioUploadReqs ("tok") ("QUJD"), isFormBody req.body = true) := by
  intro h
  have hmem : bioScanReq ("tok") ("QUJD") ∈ audioUploadReqs ("tok") ("QUJD") := by
    simp [audioUploadReqs]
  have hb := h _ hmem
  simp [bioScanReq, isFormBody] at hb

/-- Claim C8 amended: the oracle voice transcription upload is sent as
multipart form data, while the bio-scan voice upload is base64 audio
embedded in a JSON body under the field audio_base64 and is not form
data. -/
theorem claim8_amended (token audio_base64 : String) :
    isFormBody (oracleListenReq token).body = true ∧
    (bioScanReq token audio_base64).body = Body.json [("audio_base64", audio_base64)] ∧
    isFormBody (bioScanReq token audio_base64).body = false :=
  ⟨rfl, rfl, rfl⟩

/-- Claim C9: a draw attempt by a non-premium user with the celtic_cross
spread selected issues no network request, leaves the tarot state
(including the reading and the flipped cards) unchanged, shows the
premium-required error toast and navigates to /premium. -/
theorem claim9_celtic_premium_gate (token : String) (res : Fetched ReadingData)
    (s : TarotState) (h : s.spreadType = "celtic_cross") :
    drawCards token false res s =
      (s, [Effect.toastError ("Celtic Cross requires Premium"), Effect.navigate ("/premium")]) ∧
    ∀ req, Effect.network req ∉ (drawCards token false res s).2 := by
  constructor
  · simp [drawCards, h]
  · intro req hmem
    simp [drawCards, h] at hmem

/-- Witness for claim C9 at a concrete non-premium celtic_cross state. -/
theorem claim9_celtic_premium_gate_witness :
    drawCards ("tok") false (Fetched.notOk : Fetched ReadingData) celticState =
      (celticState,
       [Effect.toastError ("Celtic Cross requires Premium"), Effect.navigate ("/premium")]) := by
  exact (claim9_celtic_premium_gate ("tok") Fetched.notOk celticState rfl).1

/-- Claim C10: for every input string that is empty or consists only of
whitespace, sendMessage and createPost return at once with no effects (so
no network request) and the component state, including the message list,
loading flag, posts list and input fields, is unchanged. -/
theorem claim10_blank_noop (text : String)
    (hws : ∀ c ∈ text.data, isJsWhitespace c = true) :
    (∀ token audioEnabled res s, sendMessage token audioEnabled text res s = (s, [])) ∧
    (∀ token res s, s.newPost = text → createPost token res s = (s, [])) := by
  have htrim : jsTrim text = "" := by
    have h1 : text.data.dropWhile isJsWhitespace = [] :=
      List.dropWhile_eq_nil_iff.mpr hws
    unfold jsTrim
    rw [h1]
    rfl
  constructor
  · intro token audioEnabled res s
    simp [sendMessage, htrim]
  · intro token res s hnp
    simp [createPost, hnp, htrim]

/-- Witness for claim C10 at a whitespace-only input. -/
theorem claim10_blank_noop_witness :
    sendMessage ("tok") true (" \t ") (Fetched.notOk : Fetched (String × Option String))
      ⟨[], "", false⟩ = (⟨[], "", false⟩, []) ∧
    createPost ("tok") (Fetched.notOk : Fetched Post) ⟨[], " \t ", "general"⟩ =
      (⟨[], " \t ", "general"⟩, []) := by
  have h := claim10_blank_noop (" \t ") (by decide)
  exact ⟨h.1 ("tok") true _ _, h.2 ("tok") _ _ rfl⟩

end YKY
